import Mathlib

-- Verification development for the SUMO bridge service
-- (backend/python-bridge/sumo_bridge.py, class SUMOBridge, with the variant
-- class in backend/python-bridge/sumo_bridge_fixed.py).
-- Machine floats in the source are embedded as rationals; the TraCI engine,
-- the OS working directory and worker threads are made explicit state.

namespace SumoBridge

-- Python string containment (`pat in hay`), used by is_emergency_vehicle.

def listStartsWith : List Char → List Char → Bool
  | _, [] => true
  | [], _ :: _ => false
  | a :: hs, b :: ps => a == b && listStartsWith hs ps

def listHasSub (hay pat : List Char) : Bool :=
  match hay with
  | [] => listStartsWith [] pat
  | _ :: rest => listStartsWith hay pat || listHasSub rest pat

-- Python str.lower() on the character data (the ids are ASCII).

def lowerData (s : String) : List Char :=
  s.data.map Char.toLower

def strStartsWith (s pre : String) : Bool :=
  listStartsWith s.data pre.data

-- is_emergency_vehicle (sumo_bridge.py lines 1054-1061)

def emergencyKeywords : List String :=
  ["ambulance", "police", "fire", "emergency", "rescue"]

def is_emergency_vehicle (vehicleId vehicleType : String) : Bool :=
  emergencyKeywords.any fun kw =>
    listHasSub (lowerData vehicleId) kw.data || listHasSub (lowerData vehicleType) kw.data

-- get_emergency_type (lines 1063-1074)

def get_emergency_type (vehicleId vehicleType : String) : String :=
  let s := lowerData (vehicleId ++ vehicleType)
  if listHasSub s "ambulance".data then "ambulance"
  else if listHasSub s "police".data then "police"
  else if listHasSub s "fire".data then "fire"
  else "rescue"

-- map_vehicle_type (lines 1032-1042): dict lookup with default car

def map_vehicle_type (sumoType : String) : String :=
  if sumoType == "passenger" then "car"
  else if sumoType == "bus" then "bus"
  else if sumoType == "truck" then "truck"
  else if sumoType == "motorcycle" then "motorcycle"
  else if sumoType == "bicycle" then "bicycle"
  else if sumoType == "emergency" then "emergency"
  else "car"

-- map_tls_state (lines 1044-1052): single-char lookup with default red

def map_tls_state (c : Char) : String :=
  if c == 'r' then "red"
  else if c == 'y' then "yellow"
  else if c == 'g' then "green"
  else if c == 'G' then "green"
  else "red"

-- Raw per-vehicle readings pulled from TraCI in one tick
-- (the getPosition/getSpeed/getAngle/getTypeID/... calls, lines 827-833).

structure VehicleReading where
  id : String
  vtype : String
  x : Rat
  y : Rat
  speed : Rat
  angle : Rat
  roadId : String
  laneId : String
  route : List String
  waitingTime : Rat
  distance : Rat
deriving DecidableEq

-- The vehicle_data dict built at lines 841-856.

structure VehicleData where
  id : String
  vtype : String
  lat : Rat
  lng : Rat
  roadId : String
  laneId : String
  speed : Rat
  angle : Rat
  route : List String
  timestamp : Rat
  waitingTime : Rat
  distance : Rat
deriving DecidableEq

-- The emergency_data dict (vehicle_data plus three fields, lines 860-865).

structure EmergencyVehicleData where
  base : VehicleData
  emergencyType : String
  priority : String
  status : String
deriving DecidableEq

def toVehicleData (r : VehicleReading) (now : Rat) : VehicleData :=
  { id := r.id
    vtype := map_vehicle_type r.vtype
    lat := 9032 / 1000 + r.y / 111320
    lng := 387469 / 10000 + r.x / (111320 * (9 / 10))
    roadId := r.roadId
    laneId := r.laneId
    speed := r.speed * (36 / 10)
    angle := r.angle
    route := r.route
    timestamp := now * 1000
    waitingTime := r.waitingTime
    distance := r.distance }

def toEmergencyData (r : VehicleReading) (now : Rat) : EmergencyVehicleData :=
  { base := toVehicleData r now
    emergencyType := get_emergency_type r.id r.vtype
    priority := "high"
    status := "responding" }

-- update_vehicles_data (lines 817-878): partitions the sampled vehicles into
-- the plain list and the emergency list, in input order.

def update_vehicles_data : List VehicleReading → Rat → List VehicleData × List EmergencyVehicleData
  | [], _ => ([], [])
  | r :: rest, now =>
    let p := update_vehicles_data rest now
    if is_emergency_vehicle r.id r.vtype then
      (p.1, toEmergencyData r now :: p.2)
    else
      (toVehicleData r now :: p.1, p.2)

-- Traffic-light readings pulled from TraCI (lines 889-895); the per-lane
-- halting/waiting queries are an environment the update function samples.

structure TlsReading where
  id : String
  state : String
  phase : Int
  nextSwitch : Rat
  program : String
  controlledLanes : List String
  laneHalting : String → Nat
  laneWaiting : String → Rat

structure TrafficLightInfo where
  phase : String
  direction : String
  remainingTime : Rat
  nextPhase : String
deriving DecidableEq

structure IntersectionData where
  id : String
  lat : Rat
  lng : Rat
  trafficLights : List TrafficLightInfo
  queueLengths : List (String × Nat)
  waitingTimes : List (String × Rat)
  congestionLevel : String
  timestamp : Rat
deriving DecidableEq

-- toIntersectionData embeds the body of the loop at lines 886-930; the
-- placeholder geometry uses the Python built-in string hash, passed in here
-- as an unspecified parameter h.

def toIntersectionData (h : String → Nat) (simTime now : Rat) (t : TlsReading) : IntersectionData :=
  let c := match t.state.data with
    | [] => 'r'
    | c :: _ => c
  { id := t.id
    lat := 9032 / 1000 + ((h t.id % 1000 : Nat) : Rat) / 100000
    lng := 387469 / 10000 + ((h t.id % 1000 : Nat) : Rat) / 100000
    trafficLights := [{ phase := map_tls_state c
                        direction := "all"
                        remainingTime := max 0 (t.nextSwitch - simTime)
                        nextPhase := if !t.state.isEmpty && c == 'r' then "green" else "red" }]
    queueLengths := (t.controlledLanes.take 5).map fun l => (l, t.laneHalting l)
    waitingTimes := (t.controlledLanes.take 5).map fun l => (l, t.laneWaiting l)
    congestionLevel := "low"
    timestamp := now * 1000 }

def update_intersections_data (h : String → Nat) (tls : List TlsReading) (simTime now : Rat) :
    List IntersectionData :=
  tls.map (toIntersectionData h simTime now)

-- Road/edge readings and update_roads_data (lines 941-1010).

structure LaneReading where
  vehicleCount : Nat
  meanSpeed : Rat
  length : Rat
deriving DecidableEq

structure EdgeReading where
  id : String
  vehicleCount : Nat
  meanSpeed : Rat
  lanes : List LaneReading
deriving DecidableEq

structure LaneData where
  id : String
  vehicleCount : Nat
  averageSpeed : Rat
  density : Rat
  flow : Rat
deriving DecidableEq

structure RoadData where
  id : String
  lat1 : Rat
  lng1 : Rat
  lat2 : Rat
  lng2 : Rat
  lanes : List LaneData
  congestionLevel : String
  timestamp : Rat
deriving DecidableEq

def laneToData (edgeId : String) (idx : Nat) (l : LaneReading) : LaneData :=
  { id := edgeId ++ "_" ++ toString idx
    vehicleCount := l.vehicleCount
    averageSpeed := l.meanSpeed * (36 / 10)
    density := if l.length > 0 then (l.vehicleCount : Rat) / (l.length / 1000) else 0
    flow := if l.meanSpeed > 0 then (l.vehicleCount : Rat) * 3600 / max 1 l.meanSpeed else 0 }

def congestionOf (meanSpeed : Rat) : String :=
  if meanSpeed < 5 then "high"
  else if meanSpeed < 15 then "medium"
  else "low"

def toRoadData (h : String → Nat) (now : Rat) (e : EdgeReading) : RoadData :=
  { id := e.id
    lat1 := 9032 / 1000 + ((h e.id % 100 : Nat) : Rat) / 10000
    lng1 := 387469 / 10000 + ((h e.id % 100 : Nat) : Rat) / 10000
    lat2 := 9032 / 1000 + ((h (e.id ++ "_end") % 100 : Nat) : Rat) / 10000
    lng2 := 387469 / 10000 + ((h (e.id ++ "_end") % 100 : Nat) : Rat) / 10000
    lanes := e.lanes.enum.map fun p => laneToData e.id p.1 p.2
    congestionLevel := congestionOf e.meanSpeed
    timestamp := now * 1000 }

-- The source slices the id list to the first 50 entries, then skips internal
-- edges (ids beginning with a colon) inside the loop.

def update_roads_data (h : String → Nat) (edges : List EdgeReading) (now : Rat) : List RoadData :=
  (((edges.take 50).filter fun e => !(strStartsWith e.id ":")).map (toRoadData h now))

-- SimulationStats dict (lines 1020-1027).

structure SimulationStats where
  currentTime : Rat
  loadedVehicles : Nat
  departedVehicles : Nat
  arrivedVehicles : Nat
  activeVehicles : Nat
  timestamp : Rat
deriving DecidableEq

-- Bridge instance state: the fields assigned in SUMOBridge.__init__ plus the
-- process-wide working directory that connect_to_sumo switches and restores,
-- and a spawned-threads counter that witnesses thread creation.

structure ThreadState where
  id : Nat
  alive : Bool
deriving DecidableEq

structure ProcHandle where
  pid : Nat
  stubborn : Bool
deriving DecidableEq

structure BridgeState where
  connected : Bool
  simulation_running : Bool
  sumo_process : Option ProcHandle
  vehicles_data : List VehicleData
  intersections_data : List IntersectionData
  roads_data : List RoadData
  emergency_vehicles_data : List EmergencyVehicleData
  simulation_stats : Option SimulationStats
  update_thread : Option ThreadState
  stop_updates : Bool
  threadsSpawned : Nat
  cwd : String
deriving DecidableEq

def initState (cwd0 : String) : BridgeState :=
  { connected := false
    simulation_running := false
    sumo_process := none
    vehicles_data := []
    intersections_data := []
    roads_data := []
    emergency_vehicles_data := []
    simulation_stats := none
    update_thread := none
    stop_updates := false
    threadsSpawned := 0
    cwd := cwd0 }

-- TraCI calls issued to the live engine session.

inductive EngineOp where
  | traciCloseOp
  | terminateProc (pid : Nat)
  | killProc (pid : Nat)
  | getProgram (tlsId : String)
  | setRYGState (tlsId : String) (state : String)
deriving DecidableEq

-- Read endpoints (lines 323-330, 349-355): they serve the cached lists.

def get_vehicles (s : BridgeState) : List VehicleData :=
  s.vehicles_data

def get_emergency_vehicles (s : BridgeState) : List EmergencyVehicleData :=
  s.emergency_vehicles_data

-- stop_data_updates (lines 726-731): sets the stop flag, then joins the
-- update thread; the worker exits cooperatively once the flag is set, so
-- after the join the thread is no longer alive.

def stop_data_updates (s : BridgeState) : BridgeState :=
  let s1 := { s with stop_updates := true }
  match s1.update_thread with
  | some t => if t.alive then { s1 with update_thread := some { t with alive := false } } else s1
  | none => s1

-- joinedThread describes the effect of stop_data_updates on the thread field.

def joinedThread : Option ThreadState → Option ThreadState
  | some t => some { t with alive := false }
  | none => none

-- disconnect_from_sumo (lines 575-587): always stops the update thread, and
-- closes the TraCI session only when connected. The returned list records
-- the engine operations performed.

def disconnect_from_sumo (s : BridgeState) : BridgeState × List EngineOp :=
  let s1 := stop_data_updates s
  if s1.connected then
    ({ s1 with connected := false, simulation_running := false }, [EngineOp.traciCloseOp])
  else
    (s1, [])

-- stop_sumo_process (lines 691-715): disconnect if connected, then terminate
-- the spawned process (force-kill if it refuses to exit) and drop the handle.

def stop_sumo_process (s : BridgeState) : BridgeState × List EngineOp :=
  let d := if s.connected then disconnect_from_sumo s else (s, [])
  match d.1.sumo_process with
  | some p =>
      ({ d.1 with sumo_process := none },
       d.2 ++ EngineOp.terminateProc p.pid ::
         (if p.stubborn then [EngineOp.killProc p.pid] else []))
  | none => (d.1, d.2)

-- start_data_updates (lines 717-724): spawn a worker only when there is no
-- live update thread; otherwise the call does nothing.

def start_data_updates (s : BridgeState) : BridgeState :=
  match s.update_thread with
  | some t =>
      if t.alive then s
      else
        { s with stop_updates := false
                 update_thread := some { id := s.threadsSpawned, alive := true }
                 threadsSpawned := s.threadsSpawned + 1 }
  | none =>
      { s with stop_updates := false
               update_thread := some { id := s.threadsSpawned, alive := true }
               threadsSpawned := s.threadsSpawned + 1 }

-- update_simulation_stats (lines 1012-1030): reads the engine counters and
-- the lengths of the two vehicle lists currently stored on the bridge.

def update_simulation_stats (s : BridgeState) (simTime : Rat)
    (loaded departed arrived : Nat) (now : Rat) : SimulationStats :=
  { currentTime := simTime
    loadedVehicles := loaded
    departedVehicles := departed
    arrivedVehicles := arrived
    activeVehicles := s.vehicles_data.length + s.emergency_vehicles_data.length
    timestamp := now * 1000 }

-- Everything the tick body samples from TraCI and the wall clock.

structure TickSample where
  vehicles : List VehicleReading
  tls : List TlsReading
  edges : List EdgeReading
  simTime : Rat
  loaded : Nat
  departed : Nat
  arrived : Nat
  wallClock : Rat

-- update_simulation_data (lines 786-815): early return when not connected;
-- otherwise update vehicles, intersections, roads, then stats, in that order,
-- each by replacing the corresponding field.

def update_simulation_data (h : String → Nat) (s : BridgeState) (t : TickSample) : BridgeState :=
  if !s.connected then s
  else
    let p := update_vehicles_data t.vehicles t.wallClock
    let s1 := { s with vehicles_data := p.1, emergency_vehicles_data := p.2 }
    let s2 := { s1 with intersections_data := update_intersections_data h t.tls t.simTime t.wallClock }
    let s3 := { s2 with roads_data := update_roads_data h t.edges t.wallClock }
    let st := update_simulation_stats s3 t.simTime t.loaded t.departed t.arrived t.wallClock
    { s3 with simulation_stats := some st }

-- phase_mapping dict inside override_traffic_light (lines 1083-1089).

def phase_mapping (phase : String) : String :=
  if phase == "red" then "r"
  else if phase == "yellow" then "y"
  else if phase == "green" then "G"
  else "G"

def repeatStr (s : String) : Nat → String
  | 0 => ""
  | n + 1 => s ++ repeatStr s n

-- Engine-side session state visible to override commands.

structure EngineState where
  tlsIds : List String
  tlsStates : List (String × String)
deriving DecidableEq

def setTlsState (e : EngineState) (tlsId st : String) : EngineState :=
  { e with tlsStates := (tlsId, st) :: e.tlsStates }

structure OverrideResult where
  success : Bool
  bridge : BridgeState
  engine : EngineState
  ops : List EngineOp
deriving DecidableEq

-- override_traffic_light (lines 1076-1100): returns False when not connected;
-- otherwise issues getProgram and setRedYellowGreenState directly against the
-- session (no lookup in the cached snapshot). An unknown id makes the TraCI
-- call raise; the broad except swallows it and returns False. No bridge cache
-- field is ever assigned.

def override_traffic_light (s : BridgeState) (e : EngineState)
    (intersectionId phase : String) (duration : Rat) : OverrideResult :=
  if !s.connected then
    { success := false, bridge := s, engine := e, ops := [] }
  else
    let sumoPhase := phase_mapping phase
    if e.tlsIds.contains intersectionId then
      let newSt := repeatStr sumoPhase 4
      { success := true
        bridge := s
        engine := setTlsState e intersectionId newSt
        ops := [EngineOp.getProgram intersectionId, EngineOp.setRYGState intersectionId newSt] }
    else
      { success := false, bridge := s, engine := e,
        ops := [EngineOp.getProgram intersectionId] }

-- Environment oracle for connect_to_sumo (lines 434-573): whether the config
-- file exists, its directory, and whether traci.start and the follow-up
-- verification succeed.

structure ConnectEnv where
  configExists : Bool
  configDir : String
  traciStartOk : Bool

-- connect_to_sumo: the missing-config exception is raised before the chdir,
-- so the outer except only clears the connected flag. Once the chdir has
-- happened, the try/finally restores the saved working directory on both the
-- success path and the failure path before control leaves the call.

def connect_to_sumo (s : BridgeState) (env : ConnectEnv) : Bool × BridgeState :=
  if !env.configExists then
    (false, { s with connected := false })
  else
    let s1 := { s with cwd := env.configDir }
    if env.traciStartOk then
      let s2 := { s1 with connected := true, simulation_running := true }
      let s3 := start_data_updates s2
      (true, { s3 with cwd := s.cwd })
    else
      (false, { s1 with cwd := s.cwd, connected := false })

-- connect_to_sumo_fixed (sumo_bridge_fixed.py lines 45-156): same shape, but
-- first disconnects any existing session; the FileNotFoundError is likewise
-- raised before the chdir.

def connect_to_sumo_fixed (s : BridgeState) (env : ConnectEnv) : Bool × BridgeState :=
  let s0 := if s.connected then (disconnect_from_sumo s).1 else s
  if !env.configExists then
    (false, { s0 with connected := false })
  else
    let s1 := { s0 with cwd := env.configDir }
    if env.traciStartOk then
      let s2 := { s1 with connected := true, simulation_running := true }
      let s3 := start_data_updates s2
      (true, { s3 with cwd := s0.cwd })
    else
      (false, { s1 with cwd := s0.cwd, connected := false })

-- The polling loop update_data_loop (lines 733-784). Its local variables are
-- update_count and last_time (initialised to -1); the loop body either
-- completes a tick (reading the new simulation time) or raises, in which case
-- the except block inspects the message: if it mentions connection or socket
-- the loop clears the flags and breaks, otherwise it sleeps and retries.

inductive TickOutcome where
  | ok (newTime : Rat)
  | err (msg : String)

def isConnectionMessage (msg : String) : Bool :=
  listHasSub (lowerData msg) "connection".data || listHasSub (lowerData msg) "socket".data

structure LoopState where
  stop_updates : Bool
  connected : Bool
  simulation_running : Bool
  update_count : Nat
  last_time : Rat
  halted : Bool
deriving DecidableEq

def loopStep (s : LoopState) (r : TickOutcome) : LoopState :=
  if s.halted then s
  else if s.stop_updates || !s.connected then { s with halted := true }
  else
    match r with
    | TickOutcome.ok newTime =>
        let s1 := { s with update_count := s.update_count + 1 }
        if s1.simulation_running then
          if newTime > s1.last_time then { s1 with last_time := newTime } else s1
        else s1
    | TickOutcome.err msg =>
        let s1 := { s with update_count := s.update_count + 1 }
        if isConnectionMessage msg then
          { s1 with connected := false, simulation_running := false, halted := true }
        else s1

def runLoop (s : LoopState) (ticks : List TickOutcome) : LoopState :=
  ticks.foldl loopStep s

def loopEntry : LoopState :=
  { stop_updates := false
    connected := true
    simulation_running := true
    update_count := 0
    last_time := -1
    halted := false }

-- A loop state in which the worker is between ticks: not yet exited, no stop
-- requested, session connected (the while condition at line 739 holds).

def runningLoop (s : LoopState) : Prop :=
  s.halted = false ∧ s.stop_updates = false ∧ s.connected = true

-- Concrete fixtures used to evaluate the definitions at explicit inputs.

def hashZero : String → Nat := fun _ => 0

def edgeA : EdgeReading :=
  { id := "A", vehicleCount := 0, meanSpeed := 0, lanes := [] }

def bridgeConn : BridgeState :=
  { initState "wd" with connected := true }

def engineOne : EngineState :=
  { tlsIds := ["tls1"], tlsStates := [] }

def vehicleReading0 : VehicleReading :=
  { id := "veh0", vtype := "passenger", x := 0, y := 0, speed := 0, angle := 0,
    roadId := "edge0", laneId := "edge0_0", route := ["edge0"],
    waitingTime := 0, distance := 0 }

def sampleTick : TickSample :=
  { vehicles := [vehicleReading0], tls := [], edges := [],
    simTime := 5, loaded := 1, departed := 1, arrived := 0,
    wallClock := 1700000000 }

-- Shared helper lemmas.

theorem update_vehicles_data_eq (rs : List VehicleReading) (now : Rat) :
    update_vehicles_data rs now
      = ((rs.filter fun r => !(is_emergency_vehicle r.id r.vtype)).map (fun r => toVehicleData r now),
         (rs.filter fun r => is_emergency_vehicle r.id r.vtype).map (fun r => toEmergencyData r now)) := by
  induction rs with
  | nil => rfl
  | cons r rest ih =>
      cases hr : is_emergency_vehicle r.id r.vtype <;>
        simp [update_vehicles_data, hr, ih, List.filter_cons]

theorem length_filter_split {α : Type} (p : α → Bool) (l : List α) :
    ((l.filter fun a => !(p a)).length + (l.filter p).length) = l.length := by
  induction l with
  | nil => rfl
  | cons a l ih => cases h : p a <;> simp [List.filter_cons, h] <;> omega

/-- C9: every vehicle sampled in a tick is placed in exactly one of the two
published lists: update_vehicles_data splits its input into the non-emergency
list and the emergency list exactly by is_emergency_vehicle (the lowercased id
or type containing one of ambulance, police, fire, emergency, rescue), and the
two lengths sum to the number of sampled vehicles. The vehicles read endpoint
serves only vehicles_data, so emergency vehicles are excluded from it, and the
stats published in the same tick carry activeVehicles equal to the length of
vehicles_data plus the length of emergency_vehicles_data. -/
theorem vehicles_partition_complete (rs : List VehicleReading) (now : Rat)
    (h : String → Nat) (s : BridgeState) (t : TickSample) :
    (update_vehicles_data rs now).1
        = (rs.filter fun r => !(is_emergency_vehicle r.id r.vtype)).map (fun r => toVehicleData r now)
  ∧ (update_vehicles_data rs now).2
        = (rs.filter fun r => is_emergency_vehicle r.id r.vtype).map (fun r => toEmergencyData r now)
  ∧ (update_vehicles_data rs now).1.length + (update_vehicles_data rs now).2.length = rs.length
  ∧ get_vehicles (update_simulation_data h { s with connected := true } t)
        = (update_vehicles_data t.vehicles t.wallClock).1
  ∧ ((update_simulation_data h { s with connected := true } t).simulation_stats.map
        fun st => st.activeVehicles)
        = some ((update_vehicles_data t.vehicles t.wallClock).1.length
                + (update_vehicles_data t.vehicles t.wallClock).2.length) := by
  refine ⟨?_, ?_, ?_, rfl, rfl⟩
  · rw [update_vehicles_data_eq]
  · rw [update_vehicles_data_eq]
  · rw [update_vehicles_data_eq]
    simp only [List.length_map]
    exact length_filter_split _ _

/-- C10: every published roads snapshot is drawn only from the first 50 edge
ids returned by the engine, excludes every internal edge (id beginning with a
colon), and therefore contains at most 50 entries. -/
theorem roads_bounded (h : String → Nat) (edges : List EdgeReading) (now : Rat) :
    (update_roads_data h edges now).length ≤ 50
  ∧ ∀ rd, rd ∈ update_roads_data h edges now →
      rd.id ∈ (edges.take 50).map (fun e => e.id) ∧ strStartsWith rd.id ":" = false := by
  constructor
  · calc (update_roads_data h edges now).length
        = ((edges.take 50).filter fun e => !(strStartsWith e.id ":")).length := by
          simp [update_roads_data]
      _ ≤ (edges.take 50).length := List.length_filter_le _ _
      _ ≤ 50 := by rw [List.length_take]; exact min_le_left _ _
  · intro rd hrd
    simp only [update_roads_data, List.mem_map, List.mem_filter] at hrd
    obtain ⟨e, ⟨he50, hint⟩, rfl⟩ := hrd
    refine ⟨List.mem_map_of_mem _ he50, ?_⟩
    have : strStartsWith e.id ":" = false := by simpa using hint
    simpa [toRoadData] using this

/-- C10 witness: the theorem evaluated at a single concrete non-internal
edge. -/
theorem roads_bounded_witness :
    (update_roads_data hashZero [edgeA] 0).length ≤ 50
  ∧ ((toRoadData hashZero 0 edgeA).id ∈ (([edgeA] : List EdgeReading).take 50).map (fun e => e.id)
      ∧ strStartsWith (toRoadData hashZero 0 edgeA).id ":" = false) :=
  ⟨(roads_bounded hashZero [edgeA] 0).1,
   (roads_bounded hashZero [edgeA] 0).2 (toRoadData hashZero 0 edgeA)
     (show toRoadData hashZero 0 edgeA ∈ [toRoadData hashZero 0 edgeA] from
       List.mem_singleton_self _)⟩

/-- C5: stopping the engine process is idempotent. A second stop right after a
first one leaves the state exactly as after the first and issues no further
engine operations, and stopping when no process was ever started and no
session is connected is a complete no-op. -/
theorem stop_sumo_idempotent :
    (∀ s : BridgeState,
        stop_sumo_process (stop_sumo_process s).1 = ((stop_sumo_process s).1, []))
  ∧ (∀ s : BridgeState, s.connected = false → s.sumo_process = none →
        stop_sumo_process s = (s, [])) := by
  have key : ∀ s : BridgeState, s.connected = false → s.sumo_process = none →
      stop_sumo_process s = (s, []) := by
    intro s hc hp
    obtain ⟨c, sr, pr, vd, idata, rdata, ed, st, ut, su, ts, cw⟩ := s
    simp only at hc hp
    subst hc
    subst hp
    rfl
  have hcp : ∀ s : BridgeState,
      (stop_sumo_process s).1.connected = false ∧ (stop_sumo_process s).1.sumo_process = none := by
    intro s
    obtain ⟨c, sr, pr, vd, idata, rdata, ed, st, ut, su, ts, cw⟩ := s
    cases c <;> rcases pr with _ | ⟨pid, stub⟩ <;>
      rcases ut with _ | ⟨tid, ta⟩ <;> (try cases ta) <;> exact ⟨rfl, rfl⟩
  exact ⟨fun s => key _ (hcp s).1 (hcp s).2, key⟩

/-- C5 witness: stopping the freshly constructed bridge (never started,
never connected) returns the state unchanged with no engine operations. -/
theorem stop_sumo_idempotent_witness :
    stop_sumo_process (initState "w5") = (initState "w5", []) :=
  stop_sumo_idempotent.2 (initState "w5") rfl rfl

/-- C7 counterexample: calling disconnect_from_sumo on a bridge that was never
connected performs no engine operation, but it does not leave the bridge state
unchanged, because stop_data_updates unconditionally sets the stop_updates
flag to true before the connected check. -/
theorem disconnect_changes_state_cx :
    (disconnect_from_sumo (initState "wd")).2 = []
  ∧ (initState "wd").stop_updates = false
  ∧ ((disconnect_from_sumo (initState "wd")).1).stop_updates = true
  ∧ (disconnect_from_sumo (initState "wd")).1 ≠ initState "wd" := by
  refine ⟨rfl, rfl, rfl, ?_⟩
  intro h
  exact absurd (congrArg BridgeState.stop_updates h) (by decide)

/-- C7 (amended): disconnecting with no session connected performs no engine
operation and raises no error, and its only effect on the bridge state is to
set the stop_updates flag and join any live update thread; calling disconnect
twice in a row leaves the state exactly as after the first call and issues no
further engine operations. -/
theorem disconnect_idempotent_safe :
    (∀ s : BridgeState, s.connected = false →
        disconnect_from_sumo s
          = ({ s with stop_updates := true, update_thread := joinedThread s.update_thread }, []))
  ∧ (∀ s : BridgeState,
        disconnect_from_sumo (disconnect_from_sumo s).1 = ((disconnect_from_sumo s).1, [])) := by
  constructor
  · intro s hc
    obtain ⟨c, sr, pr, vd, idata, rdata, ed, st, ut, su, ts, cw⟩ := s
    simp only at hc
    subst hc
    rcases ut with _ | ⟨tid, ta⟩
    · rfl
    · cases ta <;> rfl
  · intro s
    obtain ⟨c, sr, pr, vd, idata, rdata, ed, st, ut, su, ts, cw⟩ := s
    cases c <;> rcases ut with _ | ⟨tid, ta⟩ <;> (try cases ta) <;> rfl

/-- C7 witness: the amended theorem evaluated on the freshly constructed,
never-connected bridge. -/
theorem disconnect_idempotent_safe_witness :
    disconnect_from_sumo (initState "w7")
      = ({ initState "w7" with
            stop_updates := true
            update_thread := joinedThread (initState "w7").update_thread }, []) :=
  disconnect_idempotent_safe.1 (initState "w7") rfl

/-- C8: a call to start_data_updates made while an update thread is already
alive is a no-op: the state is returned unchanged, so no second thread is
created (threadsSpawned is unchanged) and the stop flag and existing thread
are untouched. -/
theorem start_updates_noop_when_alive (s : BridgeState) (t : ThreadState)
    (h1 : s.update_thread = some t) (h2 : t.alive = true) :
    start_data_updates s = s := by
  obtain ⟨c, sr, pr, vd, idata, rdata, ed, st, ut, su, ts, cw⟩ := s
  simp only at h1
  subst h1
  obtain ⟨tid, ta⟩ := t
  simp only at h2
  subst h2
  rfl

/-- C8 witness: starting updates on a bridge whose update thread is alive
returns the state unchanged. -/
theorem start_updates_noop_when_alive_witness :
    start_data_updates { initState "w8" with update_thread := some { id := 0, alive := true } }
      = { initState "w8" with update_thread := some { id := 0, alive := true } } :=
  start_updates_noop_when_alive _ { id := 0, alive := true } rfl rfl

/-- C6: on every path through connect_to_sumo and connect_to_sumo_fixed,
whether the call succeeds or fails, the process-wide working directory after
the call equals the working directory before it: the chdir into the config
directory is saved and restored and never leaks to the caller. -/
theorem connect_preserves_cwd (s : BridgeState) (env : ConnectEnv) :
    ((connect_to_sumo s env).2).cwd = s.cwd
  ∧ ((connect_to_sumo_fixed s env).2).cwd = s.cwd := by
  obtain ⟨ce, cd, ok⟩ := env
  obtain ⟨c, sr, pr, vd, idata, rdata, ed, st, ut, su, ts, cw⟩ := s
  constructor
  · cases ce <;> cases ok <;>
      rcases ut with _ | ⟨tid, ta⟩ <;> (try cases ta) <;> rfl
  · cases c <;> cases ce <;> cases ok <;>
      rcases ut with _ | ⟨tid, ta⟩ <;> (try cases ta) <;> rfl

/-- C3: when a running tick raises an error whose message marks it as a
connection failure, the loop clears connected and simulation_running and
halts; an error not classified as a connection failure only increments the
tick counter and the loop continues unchanged, as does a successful tick; and
a halted loop stays halted under any further sequence of tick outcomes, so
only an explicit restart (start_data_updates, reached through the connect,
start or resume requests) can run it again. -/
theorem connection_error_halts_loop (s : LoopState) (msg : String) (t : Rat)
    (ticks : List TickOutcome) (h : runningLoop s) :
    (isConnectionMessage msg = true →
        loopStep s (TickOutcome.err msg)
          = { s with update_count := s.update_count + 1,
                     connected := false, simulation_running := false, halted := true })
  ∧ (isConnectionMessage msg = false →
        loopStep s (TickOutcome.err msg) = { s with update_count := s.update_count + 1 })
  ∧ (loopStep s (TickOutcome.ok t)).halted = false
  ∧ (∀ s2 : LoopState, s2.halted = true → runLoop s2 ticks = s2) := by
  obtain ⟨hh, hsu, hc⟩ := h
  have habs : ∀ (s2 : LoopState), s2.halted = true →
      ∀ (l : List TickOutcome), runLoop s2 l = s2 := by
    intro s2 h2 l
    induction l with
    | nil => rfl
    | cons r rs ih =>
        have hstep : loopStep s2 r = s2 := by simp [loopStep, h2]
        show List.foldl loopStep (loopStep s2 r) rs = s2
        rw [hstep]
        exact ih
  refine ⟨?_, ?_, ?_, fun s2 h2 => habs s2 h2 ticks⟩
  · intro hm
    simp [loopStep, hh, hsu, hc, hm]
  · intro hm
    simp [loopStep, hh, hsu, hc, hm]
  · cases hsim : s.simulation_running
    · simp [loopStep, hh, hsu, hc, hsim]
    · by_cases hlt : t > s.last_time <;> simp [loopStep, hh, hsu, hc, hsim, hlt]

/-- C3 witness: a running loop hit by a socket error halts with both flags
cleared. -/
theorem connection_error_halts_loop_witness :
    loopStep loopEntry (TickOutcome.err "socket closed")
      = { stop_updates := false, connected := false, simulation_running := false,
          update_count := 1, last_time := -1, halted := true } :=
  (connection_error_halts_loop loopEntry "socket closed" 0 [] ⟨rfl, rfl, rfl⟩).1 (by decide)

/-- C4 counterexample: the loop body keeps exactly the local state modelled by
LoopState: the bridge flags, a total tick counter update_count and the last
observed simulation time last_time. Running an advancing tick followed by
three consecutive non-advancing ticks leaves the complete loop state at
update_count 4 and last_time 5: no component holds the stall count 3 the claim
requires. After a subsequent advancing tick the complete state is update_count
5 and last_time 7: no component was reset to 0. The loop therefore maintains
no stall counter. -/
theorem stall_counter_absent_cx :
    runLoop loopEntry
        [TickOutcome.ok 5, TickOutcome.ok 5, TickOutcome.ok 5, TickOutcome.ok 5]
      = { stop_updates := false, connected := true, simulation_running := true,
          update_count := 4, last_time := 5, halted := false }
  ∧ runLoop loopEntry
        [TickOutcome.ok 5, TickOutcome.ok 5, TickOutcome.ok 5, TickOutcome.ok 5,
         TickOutcome.ok 7]
      = { stop_updates := false, connected := true, simulation_running := true,
          update_count := 5, last_time := 7, halted := false }
  ∧ (4 : Nat) ≠ 3 ∧ (5 : Nat) ≠ 0 ∧ (5 : Rat) ≠ 3 ∧ (7 : Rat) ≠ 0 := by
  decide

/-- C4 (amended): the loop tracks the last observed simulation time and a
total tick counter, but no stall counter. A completed tick never halts or
crashes the loop: it increments update_count (which counts every tick and is
never reset), sets last_time to the new simulation time exactly when time
advanced and leaves it unchanged on a stall (which only logs a warning), and
leaves every other component of the loop state unchanged. -/
theorem stall_tick_behaviour (s : LoopState) (t : Rat)
    (h : runningLoop s) (hs : s.simulation_running = true) :
    loopStep s (TickOutcome.ok t)
      = { s with update_count := s.update_count + 1,
                 last_time := if t > s.last_time then t else s.last_time } := by
  obtain ⟨hh, hsu, hc⟩ := h
  by_cases hlt : t > s.last_time <;>
    simp [loopStep, hh, hsu, hc, hs, hlt]

/-- C4 witness: the amended theorem evaluated at the loop entry state with an
advancing tick. -/
theorem stall_tick_behaviour_witness :
    loopStep loopEntry (TickOutcome.ok 5)
      = { stop_updates := false, connected := true, simulation_running := true,
          update_count := 1, last_time := 5, halted := false } := by
  have h := stall_tick_behaviour loopEntry 5 ⟨rfl, rfl, rfl⟩ rfl
  rw [h]
  decide

/-- C2 counterexample: with a connected bridge whose cached snapshot contains
no intersections at all, an override aimed at an id absent from the cache does
not fail with a not-found error and does issue commands to the engine session:
when the engine knows the id the call succeeds outright, issuing getProgram
and setRedYellowGreenState. -/
theorem override_bypasses_cache_cx :
    (bridgeConn.intersections_data.map fun i => i.id) = []
  ∧ (override_traffic_light bridgeConn engineOne "tls1" "green" 30).success = true
  ∧ (override_traffic_light bridgeConn engineOne "tls1" "green" 30).ops
      = [EngineOp.getProgram "tls1", EngineOp.setRYGState "tls1" "GGGG"] := by
  refine ⟨rfl, ?_, ?_⟩ <;> decide

/-- C2 (amended): override_traffic_light performs no validation against the
cached snapshot. Whenever the bridge is connected it issues commands to the
engine session regardless of whether the target id appears in the cached
snapshot; its success is decided solely by whether the engine knows the id
(an unknown id makes the TraCI call raise, the broad except swallows it and
the call returns plain false, not a structured not-found error); and it never
writes any bridge cache field, so the next published snapshot is unaffected
by the rejected command. -/
theorem override_no_cache_validation (s : BridgeState) (e : EngineState)
    (tid phase : String) (d : Rat) (h : s.connected = true) :
    (override_traffic_light s e tid phase d).ops ≠ []
  ∧ (override_traffic_light s e tid phase d).bridge = s
  ∧ (override_traffic_light s e tid phase d).success = e.tlsIds.contains tid := by
  cases hk : e.tlsIds.contains tid <;>
    simp_all [override_traffic_light]

/-- C2 witness: the amended theorem evaluated at a connected bridge and an id
the engine does not know. -/
theorem override_no_cache_validation_witness :
    (override_traffic_light bridgeConn engineOne "tls9" "red" 30).ops ≠ []
  ∧ (override_traffic_light bridgeConn engineOne "tls9" "red" 30).bridge = bridgeConn
  ∧ (override_traffic_light bridgeConn engineOne "tls9" "red" 30).success
      = engineOne.tlsIds.contains "tls9" :=
  override_no_cache_validation bridgeConn engineOne "tls9" "red" 30 rfl

/-- C1 counterexample: after one completed tick at wall-clock time 1700000000
and simulation time 5, the published vehicle snapshot carries timestamp
1700000000000 (wall-clock milliseconds) while the simulation stats published
in the very same tick carry currentTime 5 (simulation seconds): the two differ
by far more than one tick interval (the step length is 1 simulated second and
the loop sleeps 0.1 wall seconds per tick). -/
theorem snapshot_clocks_diverge :
    ((update_simulation_data hashZero bridgeConn sampleTick).vehicles_data.map
        fun v => v.timestamp) = [(1700000000 : Rat) * 1000]
  ∧ ((update_simulation_data hashZero bridgeConn sampleTick).simulation_stats.map
        fun st => st.currentTime) = some 5
  ∧ ((1700000000 : Rat) * 1000 - 5 > 1 ∧ (1700000000 : Rat) * 1000 - 5 > 1000) := by
  refine ⟨by rfl, by rfl, by norm_num, by norm_num⟩

/-- C1 (amended): each tick rebuilds the vehicle lists wholesale and stamps
every vehicle snapshot of the tick with the wall-clock capture time in
milliseconds, while the simulation stats published by the same tick carry the
engine simulation time as currentTime and the same wall-clock milliseconds as
their own timestamp; the two fields come from different clocks, so no fixed
tick-interval bound relates a vehicle timestamp to currentTime. Within one
completed tick the snapshot is internally consistent: activeVehicles equals
the length of vehicles_data plus the length of emergency_vehicles_data
published by that tick. -/
theorem tick_clock_domains (h : String → Nat) (s : BridgeState) (t : TickSample) :
    ((update_simulation_data h { s with connected := true } t).vehicles_data.all
        fun v => v.timestamp == t.wallClock * 1000) = true
  ∧ ((update_simulation_data h { s with connected := true } t).emergency_vehicles_data.all
        fun v => v.base.timestamp == t.wallClock * 1000) = true
  ∧ ((update_simulation_data h { s with connected := true } t).simulation_stats.map
        fun st => st.currentTime) = some t.simTime
  ∧ ((update_simulation_data h { s with connected := true } t).simulation_stats.map
        fun st => st.timestamp) = some (t.wallClock * 1000)
  ∧ ((update_simulation_data h { s with connected := true } t).simulation_stats.map
        fun st => st.activeVehicles)
      = some ((update_simulation_data h { s with connected := true } t).vehicles_data.length
              + (update_simulation_data h { s with connected := true } t).emergency_vehicles_data.length) := by
  have hv : ∀ (rs : List VehicleReading) (now : Rat),
      ((update_vehicles_data rs now).1.all fun v => v.timestamp == now * 1000) = true
    ∧ ((update_vehicles_data rs now).2.all fun v => v.base.timestamp == now * 1000) = true := by
    intro rs now
    induction rs with
    | nil => exact ⟨rfl, rfl⟩
    | cons r rest ih =>
        cases hr : is_emergency_vehicle r.id r.vtype <;>
          simp [update_vehicles_data, hr, toVehicleData, toEmergencyData, ih.1, ih.2]
  exact ⟨(hv t.vehicles t.wallClock).1, (hv t.vehicles t.wallClock).2, rfl, rfl, rfl⟩

end SumoBridge
